import Mathlib

/-!
Verification of the `dnsolve` native resolver layer.

The development shallowly embeds the program's pure logic:

* `src/native/src/response.rs` — the `ResponseBuilder` accumulator and its
  `build` / `error` output functions (JSON values are modelled by the
  inductive `Json` below; an object is an association list of key/value
  pairs, and key lookup is what the claims observe).
* `src/native/src/resolver.rs` — the record-data serializer
  (`rdata_to_string`, `to_hex`), the reverse-lookup name construction, the
  status classification of resolver errors, and the assembly of the final
  response for `resolve` / `reverse_lookup`.  The network round-trip
  performed by the external resolver library is an input of the embedding:
  the lookup outcome (a list of records, or an error kind) is passed as an
  explicit argument.
* The external Rust standard-library parsers `IpAddr::from_str` and
  `SocketAddr::from_str` used by the source are modelled by a faithful
  recursive-descent parser (`read_ipv4`, `read_ipv6`, … below); IPv6 scope
  identifiers are supported only in the bracketed socket-address form, as
  in the library being modelled.
-/

/-- JSON values, as produced by the response builder (model of the
`serde_json::Value` shapes the program constructs: strings, integral
numbers, booleans, arrays and objects). An object is the ordered list of
its key/value pairs. -/
inductive Json where
  | str (s : String)
  | num (n : Int)
  | bool (b : Bool)
  | arr (xs : List Json)
  | obj (fields : List (String × Json))

/-- First value bound to `key`, if any (model of JSON object indexing). -/
def findField : List (String × Json) → String → Option Json
  | [], _ => none
  | (k, v) :: rest, key => if k = key then some v else findField rest key

/-- Key lookup on a JSON value: `none` on non-objects and absent keys. -/
def Json.getKey (j : Json) (key : String) : Option Json :=
  match j with
  | .obj fields => findField fields key
  | _ => none

/-- DNS status codes (RFC 1035 / RFC 6895), from `resolver.rs`. -/
def RCODE_NOERROR : Int := 0

def RCODE_FORMERR : Int := 1

def RCODE_SERVFAIL : Int := 2

def RCODE_NXDOMAIN : Int := 3

def RCODE_NOTIMP : Int := 4

def RCODE_REFUSED : Int := 5

/-- The response accumulator of `response.rs` (`struct ResponseBuilder`). -/
structure ResponseBuilder where
  status : Int
  tc : Bool
  rd : Bool
  ra : Bool
  ad : Bool
  cd : Bool
  questions : List Json
  answers : List Json
  comment : Option String

namespace ResponseBuilder

/-- `ResponseBuilder::new`. -/
def new : ResponseBuilder :=
  { status := 0, tc := false, rd := true, ra := true, ad := false,
    cd := false, questions := [], answers := [], comment := none }

/-- `ResponseBuilder::status` (named `setStatus`: the Rust method shares its
name with the field, which Lean's projection already takes). -/
def setStatus (b : ResponseBuilder) (status : Int) : ResponseBuilder :=
  { b with status := status }

/-- `ResponseBuilder::rd`. -/
def setRd (b : ResponseBuilder) (rd : Bool) : ResponseBuilder :=
  { b with rd := rd }

/-- `ResponseBuilder::ra`. -/
def setRa (b : ResponseBuilder) (ra : Bool) : ResponseBuilder :=
  { b with ra := ra }

/-- `ResponseBuilder::ad`. -/
def setAd (b : ResponseBuilder) (ad : Bool) : ResponseBuilder :=
  { b with ad := ad }

/-- `ResponseBuilder::comment`. -/
def setComment (b : ResponseBuilder) (comment : String) : ResponseBuilder :=
  { b with comment := some comment }

/-- `ResponseBuilder::add_question`. -/
def add_question (b : ResponseBuilder) (name : String) (record_type : Nat) :
    ResponseBuilder :=
  { b with questions := b.questions ++
      [Json.obj [("name", Json.str name), ("type", Json.num record_type)]] }

/-- `ResponseBuilder::add_answer`. -/
def add_answer (b : ResponseBuilder) (name : String) (record_type : Nat)
    (ttl : Nat) (data : String) : ResponseBuilder :=
  { b with answers := b.answers ++
      [Json.obj [("name", Json.str name), ("type", Json.num record_type),
                 ("TTL", Json.num ttl), ("data", Json.str data)]] }

/-- `ResponseBuilder::build`: the six flag fields, then `Question` and
`Answer` only when non-empty, then `comment` only when set. -/
def build (b : ResponseBuilder) : Json :=
  Json.obj
    ([("Status", Json.num b.status), ("TC", Json.bool b.tc),
      ("RD", Json.bool b.rd), ("RA", Json.bool b.ra),
      ("AD", Json.bool b.ad), ("CD", Json.bool b.cd)] ++
     (if b.questions.isEmpty then [] else [("Question", Json.arr b.questions)]) ++
     (if b.answers.isEmpty then [] else [("Answer", Json.arr b.answers)]) ++
     (match b.comment with
      | some c => [("comment", Json.str c)]
      | none => []))

/-- `ResponseBuilder::error`. -/
def error (status : Int) (message : String) : Json :=
  Json.obj
    [("Status", Json.num status), ("TC", Json.bool false),
     ("RD", Json.bool true), ("RA", Json.bool true),
     ("AD", Json.bool false), ("CD", Json.bool false),
     ("comment", Json.str message)]

end ResponseBuilder

theorem findField_append (l₁ l₂ : List (String × Json)) (key : String) :
    findField (l₁ ++ l₂) key =
      match findField l₁ key with
      | some v => some v
      | none => findField l₂ key := by
  induction l₁ with
  | nil => simp [findField]
  | cons p rest ih =>
    obtain ⟨k, v⟩ := p
    by_cases h : k = key <;> simp [findField, h, ih]

theorem build_getKey_Status (b : ResponseBuilder) :
    b.build.getKey "Status" = some (Json.num b.status) := by
  simp [ResponseBuilder.build, Json.getKey, findField_append, findField]

theorem build_getKey_TC (b : ResponseBuilder) :
    b.build.getKey "TC" = some (Json.bool b.tc) := by
  simp [ResponseBuilder.build, Json.getKey, findField_append, findField]

theorem build_getKey_RD (b : ResponseBuilder) :
    b.build.getKey "RD" = some (Json.bool b.rd) := by
  simp [ResponseBuilder.build, Json.getKey, findField_append, findField]

theorem build_getKey_RA (b : ResponseBuilder) :
    b.build.getKey "RA" = some (Json.bool b.ra) := by
  simp [ResponseBuilder.build, Json.getKey, findField_append, findField]

theorem build_getKey_AD (b : ResponseBuilder) :
    b.build.getKey "AD" = some (Json.bool b.ad) := by
  simp [ResponseBuilder.build, Json.getKey, findField_append, findField]

theorem build_getKey_CD (b : ResponseBuilder) :
    b.build.getKey "CD" = some (Json.bool b.cd) := by
  simp [ResponseBuilder.build, Json.getKey, findField_append, findField]

theorem build_getKey_Question (b : ResponseBuilder) :
    b.build.getKey "Question" =
      if b.questions.isEmpty then none else some (Json.arr b.questions) := by
  by_cases h : b.questions.isEmpty <;> by_cases ha : b.answers.isEmpty <;>
    cases hc : b.comment <;>
    simp [ResponseBuilder.build, Json.getKey, findField_append, findField, h, ha, hc]

theorem build_getKey_Answer (b : ResponseBuilder) :
    b.build.getKey "Answer" =
      if b.answers.isEmpty then none else some (Json.arr b.answers) := by
  by_cases hq : b.questions.isEmpty <;> by_cases ha : b.answers.isEmpty <;>
    cases hc : b.comment <;>
    simp [ResponseBuilder.build, Json.getKey, findField_append, findField, hq, ha, hc]

theorem build_getKey_comment (b : ResponseBuilder) :
    b.build.getKey "comment" =
      match b.comment with
      | some c => some (Json.str c)
      | none => none := by
  by_cases hq : b.questions.isEmpty <;> by_cases ha : b.answers.isEmpty <;>
    cases hc : b.comment <;>
    simp [ResponseBuilder.build, Json.getKey, findField_append, findField, hq, ha, hc]

/-- The typed record payloads handled by `rdata_to_string` in `resolver.rs`
(the `RData` union of the resolver library, restricted to the fields the
program reads).  Address/name payloads are carried in their canonical text
form; TXT character-strings and HINFO fields are carried after the lossy
UTF-8 decoding the source applies; TLSA/SSHFP binary payloads are byte
lists (each byte `< 256` where it matters, recorded by `RData.wf`); the
fallback case carries the library's display rendering. -/
inductive RData where
  | A (addr : String)
  | AAAA (addr : String)
  | CNAME (name : String)
  | MX (preference : Nat) (exchange : String)
  | NS (name : String)
  | PTR (name : String)
  | SOA (mname rname : String) (serial refresh retry expire minimum : Nat)
  | SRV (priority weight port : Nat) (target : String)
  | TXT (strings : List String)
  | CAA (issuer_critical : Bool) (tag value : String)
  | TLSA (cert_usage selector matching : Nat) (cert_data : List Nat)
  | SSHFP (algorithm fingerprint_type : Nat) (fingerprint : List Nat)
  | HINFO (cpu os : String)
  | Other (display : String)
deriving DecidableEq

/-- Bytes of the binary payloads fit in `u8` (true of every value the Rust
types can hold). -/
def RData.wf : RData → Prop
  | .TLSA _ _ _ cert_data => ∀ b ∈ cert_data, b < 256
  | .SSHFP _ _ fingerprint => ∀ b ∈ fingerprint, b < 256
  | _ => True

instance : DecidablePred RData.wf := by
  intro r
  unfold RData.wf
  cases r <;> infer_instance

/-- `to_hex` from `resolver.rs`: each byte formatted `{:02x}` (two lowercase
hex digits), concatenated. -/
def to_hex (bytes : List Nat) : String :=
  String.join (bytes.map fun b => String.mk [Nat.digitChar (b / 16), Nat.digitChar (b % 16)])

/-- `rdata_to_string` from `resolver.rs`. -/
def rdata_to_string : RData → String
  | .A a => a
  | .AAAA aaaa => aaaa
  | .CNAME cname => cname
  | .MX preference exchange => toString preference ++ " " ++ exchange
  | .NS ns => ns
  | .PTR ptr => ptr
  | .SOA mname rname serial refresh retry expire minimum =>
      mname ++ " " ++ rname ++ " " ++ toString serial ++ " " ++
        toString refresh ++ " " ++ toString retry ++ " " ++
        toString expire ++ " " ++ toString minimum
  | .SRV priority weight port target =>
      toString priority ++ " " ++ toString weight ++ " " ++
        toString port ++ " " ++ target
  | .TXT strings => "\"" ++ String.join strings ++ "\""
  | .CAA issuer_critical tag value =>
      toString (if issuer_critical then (128 : Nat) else 0) ++ " " ++ tag ++
        " \"" ++ value ++ "\""
  | .TLSA cert_usage selector matching cert_data =>
      toString cert_usage ++ " " ++ toString selector ++ " " ++
        toString matching ++ " " ++ to_hex cert_data
  | .SSHFP algorithm fingerprint_type fingerprint =>
      toString algorithm ++ " " ++ toString fingerprint_type ++ " " ++
        to_hex fingerprint
  | .HINFO cpu os => cpu ++ " " ++ os
  | .Other display => display

/-- Hex encoding as §4.4 of the spec words it: the sequence of nibbles of
the bytes in order, each rendered as one lowercase hexadecimal digit, with
no separator. -/
def spec_hex (bytes : List Nat) : String :=
  String.mk ((bytes.flatMap fun b => [b / 16 % 16, b % 16]).map Nat.digitChar)

/-- The fixed per-type templates of §4.4 of the spec, written from the
spec's text. -/
def spec_serialize : RData → String
  | .A addr => addr
  | .AAAA addr => addr
  | .CNAME name => name
  | .MX preference exchange => toString preference ++ " " ++ exchange
  | .NS name => name
  | .PTR name => name
  | .SOA mname rname serial refresh retry expire minimum =>
      mname ++ " " ++ rname ++ " " ++ toString serial ++ " " ++
        toString refresh ++ " " ++ toString retry ++ " " ++
        toString expire ++ " " ++ toString minimum
  | .SRV priority weight port target =>
      toString priority ++ " " ++ toString weight ++ " " ++
        toString port ++ " " ++ target
  | .TXT strings => "\"" ++ strings.foldl (· ++ ·) "" ++ "\""
  | .CAA issuer_critical tag value =>
      (if issuer_critical then "128" else "0") ++ " " ++ tag ++
        " \"" ++ value ++ "\""
  | .TLSA cert_usage selector matching cert_data =>
      toString cert_usage ++ " " ++ toString selector ++ " " ++
        toString matching ++ " " ++ spec_hex cert_data
  | .SSHFP algorithm fingerprint_type fingerprint =>
      toString algorithm ++ " " ++ toString fingerprint_type ++ " " ++
        spec_hex fingerprint
  | .HINFO cpu os => cpu ++ " " ++ os
  | .Other display => display


theorem string_mk_append (a b : List Char) :
    String.mk a ++ String.mk b = String.mk (a ++ b) := rfl

theorem string_foldl_append (l : List String) (a : String) :
    l.foldl (fun r s => r ++ s) a = a ++ l.foldl (fun r s => r ++ s) "" := by
  induction l generalizing a with
  | nil => simp
  | cons x xs ih =>
    simp only [List.foldl_cons]
    rw [ih (a ++ x), ih (("" : String) ++ x)]
    have hx : ("" : String) ++ x = x := rfl
    rw [hx, String.append_assoc]

theorem string_join_cons (x : String) (l : List String) :
    String.join (x :: l) = x ++ String.join l := by
  simp only [String.join, List.foldl_cons]
  rw [string_foldl_append]
  have hx : ("" : String) ++ x = x := rfl
  rw [hx]

theorem to_hex_mk (bytes : List Nat) :
    to_hex bytes =
      String.mk (bytes.flatMap fun b =>
        [Nat.digitChar (b / 16), Nat.digitChar (b % 16)]) := by
  induction bytes with
  | nil => rfl
  | cons b bs ih =>
    have : to_hex (b :: bs) =
        String.mk [Nat.digitChar (b / 16), Nat.digitChar (b % 16)] ++ to_hex bs := by
      simp only [to_hex, List.map_cons]
      exact string_join_cons _ _
    rw [this, ih, string_mk_append, List.flatMap_cons]

theorem to_hex_eq_spec_hex (bytes : List Nat) (h : ∀ b ∈ bytes, b < 256) :
    to_hex bytes = spec_hex bytes := by
  rw [to_hex_mk]
  unfold spec_hex
  congr 1
  induction bytes with
  | nil => rfl
  | cons b bs ih =>
    have hb : b < 256 := h b (List.mem_cons_self b bs)
    have hdiv : b / 16 % 16 = b / 16 := Nat.mod_eq_of_lt (by omega)
    simp only [List.flatMap_cons, List.map_append, List.map_cons, List.map_nil, hdiv]
    rw [ih fun x hx => h x (List.mem_cons_of_mem b hx)]

theorem to_hex_lowercase (bytes : List Nat) (h : ∀ b ∈ bytes, b < 256) :
    ∀ c ∈ (to_hex bytes).data, c ∈ "0123456789abcdef".data := by
  have hdigit : ∀ n < 16, Nat.digitChar n ∈ "0123456789abcdef".data := by decide
  intro c hc
  rw [to_hex_mk] at hc
  rcases List.mem_flatMap.mp hc with ⟨b, hb, hcb⟩
  have hb256 : b < 256 := h b hb
  simp only [List.mem_cons, List.not_mem_nil, or_false] at hcb
  rcases hcb with hcb | hcb
  · exact hcb ▸ hdigit _ (Nat.div_lt_of_lt_mul (by omega))
  · exact hcb ▸ hdigit _ (Nat.mod_lt _ (by omega))

theorem to_hex_length (bytes : List Nat) :
    (to_hex bytes).length = 2 * bytes.length := by
  rw [to_hex_mk]
  show (bytes.flatMap fun b =>
    [Nat.digitChar (b / 16), Nat.digitChar (b % 16)]).length = 2 * bytes.length
  induction bytes with
  | nil => rfl
  | cons b bs ih =>
    simp only [List.flatMap_cons, List.length_append, List.length_cons,
      List.length_nil, ih]
    omega

/-! ## Model of the Rust standard library address parsers

`parse_server_address` and `reverse_lookup` delegate parsing to
`SocketAddr::from_str` / `IpAddr::from_str` from the Rust standard
library.  The recursive-descent parser below models `core::net::parser`:
`read_number` (maximal digit run, leading-zero rule, overflow check),
`read_ipv4_addr` (four dotted decimal octets, at most three digits each,
no leading zeros), `read_ipv6_addr` (hex groups, one `::`, optional
trailing embedded IPv4), and the two socket-address forms.  Parsers take
the remaining characters and return the parsed value plus what is left;
failure returns `none` (atomic: no input consumed). -/

/-- `char::to_digit`. -/
def toDigit? (radix : Nat) (c : Char) : Option Nat :=
  let v : Option Nat :=
    if '0' ≤ c ∧ c ≤ '9' then some (c.toNat - 48)
    else if 'a' ≤ c ∧ c ≤ 'z' then some (c.toNat - 97 + 10)
    else if 'A' ≤ c ∧ c ≤ 'Z' then some (c.toNat - 65 + 10)
    else none
  match v with
  | some d => if d < radix then some d else none
  | none => none

/-- Maximal run of digits of the given radix at the front of the input. -/
def takeDigits (radix : Nat) : List Char → List Nat × List Char
  | [] => ([], [])
  | c :: cs =>
    match toDigit? radix c with
    | some d =>
      let (ds, r) := takeDigits radix cs
      (d :: ds, r)
    | none => ([], c :: cs)

/-- `Parser::read_number`: at least one digit, at most `maxDigits` when
given, no leading zero unless `zeroPrefixOk` or the number is a single
digit, value at most `cap` (the checked-arithmetic overflow bound of the
target integer type). -/
def read_number (radix : Nat) (maxDigits : Option Nat) (cap : Nat)
    (zeroPrefixOk : Bool) (s : List Char) : Option (Nat × List Char) :=
  let (ds, rest) := takeDigits radix s
  let tooMany :=
    match maxDigits with
    | some m => decide (m < ds.length)
    | none => false
  if ds.isEmpty then none
  else if tooMany then none
  else if !zeroPrefixOk && decide (ds.head? = some 0) && decide (2 ≤ ds.length) then none
  else
    let v := ds.foldl (fun a d => a * radix + d) 0
    if v ≤ cap then some (v, rest) else none

/-- `Parser::read_given_char`. -/
def read_given_char (c : Char) : List Char → Option (List Char)
  | [] => none
  | x :: xs => if x = c then some xs else none

/-- `Parser::read_ipv4_addr`: four octets separated by `'.'`. -/
def read_ipv4 (s : List Char) : Option ((Nat × Nat × Nat × Nat) × List Char) := do
  let (a, s) ← read_number 10 (some 3) 255 false s
  let s ← read_given_char '.' s
  let (b, s) ← read_number 10 (some 3) 255 false s
  let s ← read_given_char '.' s
  let (c, s) ← read_number 10 (some 3) 255 false s
  let s ← read_given_char '.' s
  let (d, s) ← read_number 10 (some 3) 255 false s
  some ((a, b, c, d), s)

/-- `Parser::read_separator`: a `':'` is required before every group but
the first. -/
def readSep {α : Type} (i : Nat) (inner : List Char → Option (α × List Char))
    (s : List Char) : Option (α × List Char) :=
  if i = 0 then inner s
  else
    match read_given_char ':' s with
    | some rest => inner rest
    | none => none

/-- The `read_groups` loop of `read_ipv6_addr`: `rem` slots remain, `i` is
the current index (for the separator rule).  Returns the groups read, the
embedded-IPv4 flag, and the remaining input.  An embedded IPv4 address is
attempted whenever at least two slots remain and ends the loop. -/
def readGroups : Nat → Nat → List Char → List Nat × Bool × List Char
  | 0, _, s => ([], false, s)
  | rem + 1, i, s =>
    match (if 1 ≤ rem then readSep i read_ipv4 s else none) with
    | some ((a, b, c, d), rest) => ([a * 256 + b, c * 256 + d], true, rest)
    | none =>
      match readSep i (read_number 16 (some 4) 65535 true) s with
      | some (g, rest) =>
        let (gs, f, r) := readGroups rem (i + 1) rest
        (g :: gs, f, r)
      | none => ([], false, s)

/-- `Parser::read_ipv6_addr`: up to eight groups, then optionally `::` and
the tail groups; the groups after `::` are right-aligned and the elided
middle is zero.  The result is the list of eight 16-bit groups. -/
def read_ipv6 (s : List Char) : Option (List Nat × List Char) :=
  match readGroups 8 0 s with
  | (head, headV4, rest) =>
    if head.length = 8 then some (head, rest)
    else if headV4 then none
    else
      match read_given_char ':' rest with
      | none => none
      | some r1 =>
        match read_given_char ':' r1 with
        | none => none
        | some r2 =>
          let limit := 8 - (head.length + 1)
          match readGroups limit 0 r2 with
          | (tail, _, r3) =>
            some (head ++ List.replicate (8 - head.length - tail.length) 0 ++ tail, r3)

/-- An IP address: four octets, or eight 16-bit groups. -/
inductive IpAddr where
  | v4 (a b c d : Nat)
  | v6 (groups : List Nat)
deriving DecidableEq

/-- `IpAddr::from_str`: try IPv4 first, otherwise IPv6; the whole string
must be consumed (an IPv4 parse that leaves residue fails outright). -/
def parseIpAddr (s : String) : Option IpAddr :=
  match read_ipv4 s.data with
  | some ((a, b, c, d), rest) =>
    if rest.isEmpty then some (.v4 a b c d) else none
  | none =>
    match read_ipv6 s.data with
    | some (groups, rest) => if rest.isEmpty then some (.v6 groups) else none
    | none => none

/-- A network endpoint (`SocketAddr`: IP plus port; the IPv6 scope
identifier, which the program never reads, is not retained). -/
structure SocketAddr where
  ip : IpAddr
  port : Nat
deriving DecidableEq

/-- `read_socket_addr_v4`: dotted quad, `':'`, decimal port (`u16`,
leading zeros allowed). -/
def read_socket_v4 (s : List Char) : Option (SocketAddr × List Char) := do
  let ((a, b, c, d), s) ← read_ipv4 s
  let s ← read_given_char ':' s
  let (port, s) ← read_number 10 none 65535 true s
  some (⟨.v4 a b c d, port⟩, s)

/-- `read_socket_addr_v6`: bracketed IPv6 with an optional numeric
`%scope`, then `':'` and the port. -/
def read_socket_v6 (s : List Char) : Option (SocketAddr × List Char) := do
  let s ← read_given_char '[' s
  let (groups, s) ← read_ipv6 s
  let s :=
    match read_given_char '%' s with
    | some s' =>
      match read_number 10 none 4294967295 true s' with
      | some (_, s'') => s''
      | none => s
    | none => s
  let s ← read_given_char ']' s
  let s ← read_given_char ':' s
  let (port, s) ← read_number 10 none 65535 true s
  some (⟨.v6 groups, port⟩, s)

/-- `SocketAddr::from_str`: the IPv4 form, otherwise the bracketed IPv6
form; the whole string must be consumed. -/
def parseSocketAddr (s : String) : Option SocketAddr :=
  match read_socket_v4 s.data with
  | some (addr, rest) => if rest.isEmpty then some addr else none
  | none =>
    match read_socket_v6 s.data with
    | some (addr, rest) => if rest.isEmpty then some addr else none
    | none => none

/-- `parse_server_address` from `resolver.rs`: a `SocketAddr` form first
(`ip:port`, `[ip]:port`), then a bare IP literal with default port 53,
otherwise the invalid-address error. -/
def parse_server_address (server : String) : Except String SocketAddr :=
  match parseSocketAddr server with
  | some addr => Except.ok addr
  | none =>
    match parseIpAddr server with
    | some ip => Except.ok ⟨ip, 53⟩
    | none => Except.error ("Invalid DNS server address: " ++ server)

/-- `create_resolver` from `resolver.rs`.  The resolver handle itself is
opaque to this layer, so the embedding keeps only what the program can
observe: creation succeeds unless an explicit server string fails to
parse, in which case the parse error propagates. -/
def create_resolver (dns_server : Option String) (_dnssec : Bool) :
    Except String Unit :=
  match dns_server with
  | some server =>
    match parse_server_address server with
    | Except.ok _ => Except.ok ()
    | Except.error e => Except.error e
  | none => Except.ok ()

/-- Protocol response codes (`hickory_proto::op::ResponseCode`, the
variants the program distinguishes plus representatives of the rest). -/
inductive ResponseCode where
  | NoError
  | FormErr
  | ServFail
  | NXDomain
  | NotImp
  | Refused
  | YXDomain
  | YXRRSet
  | NXRRSet
  | NotAuth
  | NotZone
  | BADVERS
  | Unknown (code : Nat)
deriving DecidableEq

/-- Resolver errors (`hickory_resolver::error::ResolveErrorKind`).  The
program reads only the embedded response code of `NoRecordsFound`; every
variant carries its display rendering where one is not fixed.  (`IoErr`
models the library's I/O variant.) -/
inductive ResolveErrorKind where
  | Message (msg : String)
  | Msg (msg : String)
  | NoConnections
  | NoRecordsFound (response_code : ResponseCode) (display : String)
  | IoErr (msg : String)
  | Proto (msg : String)
  | Timeout
deriving DecidableEq

/-- `Display` of a resolver error, used for the diagnostic `comment`. -/
def errDisplay : ResolveErrorKind → String
  | .Message msg => msg
  | .Msg msg => msg
  | .NoConnections => "no connections available"
  | .NoRecordsFound _ display => display
  | .IoErr msg => msg
  | .Proto msg => msg
  | .Timeout => "request timed out"

/-- The status classification of the failed-forward-lookup branch of
`resolve` (the nested `match` on the error kind in `resolver.rs`). -/
def forward_error_status : ResolveErrorKind → Int
  | .NoRecordsFound response_code _ =>
    match response_code with
    | .NXDomain => RCODE_NXDOMAIN
    | .Refused => RCODE_REFUSED
    | .FormErr => RCODE_FORMERR
    | .ServFail => RCODE_SERVFAIL
    | .NotImp => RCODE_NOTIMP
    | _ => RCODE_NOERROR
  | _ => RCODE_SERVFAIL

/-- The status classification of the failed-reverse-lookup branch of
`reverse_lookup` in `resolver.rs`. -/
def reverse_error_status : ResolveErrorKind → Int
  | .NoRecordsFound response_code _ =>
    match response_code with
    | .NXDomain => RCODE_NXDOMAIN
    | _ => RCODE_SERVFAIL
  | _ => RCODE_SERVFAIL

/-- One record of a successful lookup (`hickory` `Record`, restricted to
the fields the program reads; `data()` is optional in the library API,
and the program skips records whose data is absent). -/
structure ResolvedRecord where
  name : String
  rtype : Nat
  ttl : Nat
  rdata : Option RData
deriving DecidableEq

/-- `resolve` from `resolver.rs`.  The network lookup performed by the
external resolver is an input: `lookupResult` is what
`resolver.lookup(domain, rtype).await` returned. -/
def resolve (domain : String) (record_type : Nat) (dns_server : Option String)
    (dnssec : Bool)
    (lookupResult : Except ResolveErrorKind (List ResolvedRecord)) : Json :=
  match create_resolver dns_server dnssec with
  | Except.error e =>
    ResponseBuilder.error RCODE_SERVFAIL ("Failed to create resolver: " ++ e)
  | Except.ok _ =>
    match lookupResult with
    | Except.ok records =>
      (records.foldl
        (fun b record =>
          match record.rdata with
          | some rdata =>
            b.add_answer record.name record.rtype record.ttl (rdata_to_string rdata)
          | none => b)
        (((((ResponseBuilder.new.setStatus RCODE_NOERROR).setRd true).setRa
            true).setAd dnssec).add_question domain record_type)).build
    | Except.error e =>
      (((((ResponseBuilder.new.setStatus (forward_error_status e)).setRd
          true).setRa true).setComment (errDisplay e)).add_question domain
          record_type).build

/-- `u16::from(RecordType::PTR)`. -/
def PTR_TYPE : Nat := 12

/-- The PTR name construction of `reverse_lookup` in `resolver.rs`: IPv4
octets reversed and joined with `'.'` plus `.in-addr.arpa.`; IPv6 bytes
iterated in reverse, each contributing its low then its high nibble in
lowercase hex, joined with `'.'` plus `.ip6.arpa.`. -/
def ptr_name : IpAddr → String
  | .v4 a b c d =>
    toString d ++ "." ++ toString c ++ "." ++ toString b ++ "." ++
      toString a ++ ".in-addr.arpa."
  | .v6 groups =>
    String.intercalate "."
      (((groups.flatMap fun g => [g / 256, g % 256]).reverse).flatMap
        fun byte =>
          [String.mk [Nat.digitChar (byte % 16)],
           String.mk [Nat.digitChar (byte / 16 % 16)]]) ++ ".ip6.arpa."

/-- `reverse_lookup` from `resolver.rs`.  `lookupResult` is what
`resolver.reverse_lookup(addr).await` returned: the list of hostnames
(rendered to text) on success, or the error kind. -/
def reverse_lookup (ip : String) (dns_server : Option String)
    (lookupResult : Except ResolveErrorKind (List String)) : Json :=
  match parseIpAddr ip with
  | none =>
    ResponseBuilder.error RCODE_FORMERR
      ("Invalid IP address '" ++ ip ++ "': invalid IP address syntax")
  | some addr =>
    match create_resolver dns_server false with
    | Except.error e =>
      ResponseBuilder.error RCODE_SERVFAIL ("Failed to create resolver: " ++ e)
    | Except.ok _ =>
      match lookupResult with
      | Except.ok names =>
        (names.foldl (fun b name => b.add_answer (ptr_name addr) PTR_TYPE 0 name)
          ((((ResponseBuilder.new.setStatus RCODE_NOERROR).setRd true).setRa
            true).add_question (ptr_name addr) PTR_TYPE)).build
      | Except.error e =>
        (((((ResponseBuilder.new.setStatus (reverse_error_status e)).setRd
            true).setRa true).setComment (errDisplay e)).add_question
            (ptr_name addr) PTR_TYPE).build

/-! ## Claim theorems -/

/-- C9: for every IPv4 address the reverse-lookup name builder returns the
four octets in reversed order joined with `'.'` followed by
`.in-addr.arpa.`; in particular `192.0.2.5` gives
`"5.2.0.192.in-addr.arpa."`. -/
theorem ipv4_reverse_name_spec :
    (∀ a b c d : Nat,
      ptr_name (.v4 a b c d) =
        String.intercalate "." (([a, b, c, d].reverse).map toString) ++
          ".in-addr.arpa.") ∧
    parseIpAddr "192.0.2.5" = some (.v4 192 0 2 5) ∧
    ptr_name (.v4 192 0 2 5) = "5.2.0.192.in-addr.arpa." :=
  ⟨fun _ _ _ _ => rfl, rfl, rfl⟩

/-- C2 (amended): for every IPv6 address the reverse-lookup name equals:
take the 16 address bytes, emit for each byte its HIGH nibble then its
LOW nibble (lowercase hex) for all bytes in order, reverse the resulting
full nibble sequence, join with `'.'`, append `.ip6.arpa.`.  (The claim
as frozen puts the low nibble first before the reversal; the
counterexample below shows that order is wrong.) -/
theorem ipv6_reverse_name_spec (groups : List Nat) :
    ptr_name (.v6 groups) =
      String.intercalate "."
        (((groups.flatMap fun g => [g / 256, g % 256]).flatMap fun byte =>
            [String.mk [Nat.digitChar (byte / 16 % 16)],
             String.mk [Nat.digitChar (byte % 16)]]).reverse) ++
        ".ip6.arpa." := by
  have h :
      ((groups.flatMap fun g => [g / 256, g % 256]).flatMap fun byte =>
          [String.mk [Nat.digitChar (byte / 16 % 16)],
           String.mk [Nat.digitChar (byte % 16)]]).reverse =
        ((groups.flatMap fun g => [g / 256, g % 256]).reverse).flatMap
          fun byte =>
            [String.mk [Nat.digitChar (byte % 16)],
             String.mk [Nat.digitChar (byte / 16 % 16)]] := by
    rw [List.reverse_flatMap]
    rfl
  rw [ptr_name, h]

/-- C2 counterexample: on `::1` the frozen claim's procedure (low nibble
first, then high, then reverse the whole sequence) does not produce the
name the code builds — it swaps the two nibbles of every byte. -/
theorem ipv6_reverse_name_low_first_counterexample :
    parseIpAddr "::1" = some (.v6 [0, 0, 0, 0, 0, 0, 0, 1]) ∧
    ptr_name (.v6 [0, 0, 0, 0, 0, 0, 0, 1]) =
      "1.0.0.0.0.0.0.0.0.0.0.0.0.0.0.0.0.0.0.0.0.0.0.0.0.0.0.0.0.0.0.0.ip6.arpa." ∧
    String.intercalate "."
        (((([0, 0, 0, 0, 0, 0, 0, 1].flatMap fun g : Nat => [g / 256, g % 256]).flatMap
            fun byte =>
              [String.mk [Nat.digitChar (byte % 16)],
               String.mk [Nat.digitChar (byte / 16 % 16)]]).reverse)) ++
        ".ip6.arpa." ≠
      ptr_name (.v6 [0, 0, 0, 0, 0, 0, 0, 1]) := by
  refine ⟨rfl, rfl, ?_⟩
  decide

/-- C10: the dedicated error constructor always reports `TC=false`,
`RD=true`, `RA=true`, `AD=false`, `CD=false`, the given status, the given
message under the `comment` key, and no question or answer keys. -/
theorem error_response_shape (status : Int) (message : String) :
    (ResponseBuilder.error status message).getKey "Status" = some (Json.num status) ∧
    (ResponseBuilder.error status message).getKey "TC" = some (Json.bool false) ∧
    (ResponseBuilder.error status message).getKey "RD" = some (Json.bool true) ∧
    (ResponseBuilder.error status message).getKey "RA" = some (Json.bool true) ∧
    (ResponseBuilder.error status message).getKey "AD" = some (Json.bool false) ∧
    (ResponseBuilder.error status message).getKey "CD" = some (Json.bool false) ∧
    (ResponseBuilder.error status message).getKey "comment" = some (Json.str message) ∧
    (ResponseBuilder.error status message).getKey "Question" = none ∧
    (ResponseBuilder.error status message).getKey "Answer" = none :=
  ⟨rfl, rfl, rfl, rfl, rfl, rfl, rfl, rfl, rfl⟩

/-- C5: `build` omits the `Question` key iff the question list is empty,
the `Answer` key iff the answer list is empty and the `comment` key iff
no comment was set; a present `Question`/`Answer` key always holds a
non-empty array. -/
theorem build_omits_empty_keys (b : ResponseBuilder) :
    (b.build.getKey "Question" = none ↔ b.questions = []) ∧
    (b.build.getKey "Answer" = none ↔ b.answers = []) ∧
    (b.build.getKey "comment" = none ↔ b.comment = none) ∧
    (∀ xs, b.build.getKey "Question" = some (Json.arr xs) → xs ≠ []) ∧
    (∀ xs, b.build.getKey "Answer" = some (Json.arr xs) → xs ≠ []) := by
  refine ⟨?_, ?_, ?_, ?_, ?_⟩
  · rw [build_getKey_Question]
    cases hq : b.questions <;> simp [hq]
  · rw [build_getKey_Answer]
    cases ha : b.answers <;> simp [ha]
  · rw [build_getKey_comment]
    cases hc : b.comment <;> simp [hc]
  · rw [build_getKey_Question]
    cases hq : b.questions with
    | nil => simp
    | cons q qs =>
      intro xs hxs
      simp only [List.isEmpty_cons, if_neg Bool.false_ne_true] at hxs
      cases hxs
      exact List.cons_ne_nil q qs
  · rw [build_getKey_Answer]
    cases ha : b.answers with
    | nil => simp
    | cons a as =>
      intro xs hxs
      simp only [List.isEmpty_cons, if_neg Bool.false_ne_true] at hxs
      cases hxs
      exact List.cons_ne_nil a as

/-- C5 witness: a builder holding one question yields a `Question` key. -/
theorem build_omits_empty_keys_witness :
    (ResponseBuilder.new.add_question "example.com" 1).build.getKey "Question" ≠
      none := by
  intro hc
  have h :=
    (build_omits_empty_keys (ResponseBuilder.new.add_question "example.com" 1)).1.mp hc
  simp [ResponseBuilder.add_question, ResponseBuilder.new] at h

/-- C1: the record-data serializer returns exactly the fixed per-type
template of §4.4 for every supported payload (equality with the
spec-written templates, under the `u8` bound on binary payload bytes),
and the hex encoding used for TLSA/SSHFP is lowercase with no separators
(every output character is a lowercase hex digit and each input byte
yields exactly two of them). -/
theorem rdata_serializer_matches_templates :
    (∀ r : RData, r.wf → rdata_to_string r = spec_serialize r) ∧
    (∀ bytes : List Nat, (∀ b ∈ bytes, b < 256) →
      (∀ c ∈ (to_hex bytes).data, c ∈ "0123456789abcdef".data) ∧
      (to_hex bytes).length = 2 * bytes.length) := by
  constructor
  · intro r hwf
    cases r with
    | CAA issuer_critical tag value => cases issuer_critical <;> rfl
    | TLSA cert_usage selector matching cert_data =>
      simp only [rdata_to_string, spec_serialize]
      rw [to_hex_eq_spec_hex cert_data hwf]
    | SSHFP algorithm fingerprint_type fingerprint =>
      simp only [rdata_to_string, spec_serialize]
      rw [to_hex_eq_spec_hex fingerprint hwf]
    | A a => rfl
    | AAAA a => rfl
    | CNAME n => rfl
    | MX p e => rfl
    | NS n => rfl
    | PTR n => rfl
    | SOA mn rn se re rt ex mi => rfl
    | SRV p w po t => rfl
    | TXT strings => rfl
    | HINFO cpu os => rfl
    | Other d => rfl
  · intro bytes h
    exact ⟨to_hex_lowercase bytes h, to_hex_length bytes⟩

/-- C1 witness: the template equality and the concrete §4.4 edge cases
(TXT with several character-strings, CAA with both flag values,
TLSA/SSHFP hex lowercase with no separators). -/
theorem rdata_serializer_matches_templates_witness :
    spec_serialize (RData.TLSA 3 1 1 [171, 1, 255]) =
      rdata_to_string (RData.TLSA 3 1 1 [171, 1, 255]) ∧
    rdata_to_string (RData.TLSA 3 1 1 [171, 1, 255]) = "3 1 1 ab01ff" ∧
    rdata_to_string (RData.SSHFP 4 2 [222, 173]) = "4 2 dead" ∧
    rdata_to_string (RData.TXT ["hello", "world"]) = "\"helloworld\"" ∧
    rdata_to_string (RData.CAA true "issue" "ca.example.net") =
      "128 issue \"ca.example.net\"" ∧
    rdata_to_string (RData.CAA false "issue" "ca.example.net") =
      "0 issue \"ca.example.net\"" ∧
    rdata_to_string (RData.MX 10 "mail.example.com.") = "10 mail.example.com." ∧
    rdata_to_string (RData.SOA "ns.example.com." "admin.example.com." 2024 7200 3600 1209600 86400) =
      "ns.example.com. admin.example.com. 2024 7200 3600 1209600 86400" ∧
    rdata_to_string (RData.SRV 5 100 443 "svc.example.com.") =
      "5 100 443 svc.example.com." ∧
    rdata_to_string (RData.HINFO "ARM64" "Linux") = "ARM64 Linux" :=
  ⟨(rdata_serializer_matches_templates.1 (RData.TLSA 3 1 1 [171, 1, 255])
      (by decide)).symm,
   by decide, by decide, rfl, by decide, by decide, by decide, by decide,
   by decide, rfl⟩

/-- C3: the forward status classifier maps a no-records error by its
embedded response code (NXDomain 3, Refused 5, FormErr 1, ServFail 2,
NotImp 4, anything else 0) and every other error shape to 2; in
particular a no-records error with an unrecognized embedded code is
reported in the response with Status 0. -/
theorem forward_status_classifier :
    (∀ d, forward_error_status (.NoRecordsFound .NXDomain d) = 3) ∧
    (∀ d, forward_error_status (.NoRecordsFound .Refused d) = 5) ∧
    (∀ d, forward_error_status (.NoRecordsFound .FormErr d) = 1) ∧
    (∀ d, forward_error_status (.NoRecordsFound .ServFail d) = 2) ∧
    (∀ d, forward_error_status (.NoRecordsFound .NotImp d) = 4) ∧
    (∀ rc d, rc ≠ ResponseCode.NXDomain → rc ≠ ResponseCode.Refused →
      rc ≠ ResponseCode.FormErr → rc ≠ ResponseCode.ServFail →
      rc ≠ ResponseCode.NotImp →
      forward_error_status (.NoRecordsFound rc d) = 0) ∧
    (∀ k : ResolveErrorKind, (∀ rc d, k ≠ .NoRecordsFound rc d) →
      forward_error_status k = 2) ∧
    (resolve "example.com" 1 none false
        (Except.error (.NoRecordsFound (.Unknown 6) "no records found"))).getKey
        "Status" = some (Json.num 0) := by
  refine ⟨fun _ => rfl, fun _ => rfl, fun _ => rfl, fun _ => rfl, fun _ => rfl,
    ?_, ?_, rfl⟩
  · intro rc d h1 h2 h3 h4 h5
    cases rc <;> first | rfl | simp_all
  · intro k h
    cases k <;> first | rfl | exact absurd rfl (h _ _)

/-- C3 witness: the unrecognized-code and other-shape branches at
concrete inputs. -/
theorem forward_status_classifier_witness :
    forward_error_status (.NoRecordsFound (.Unknown 6) "x") = 0 ∧
    forward_error_status .Timeout = 2 := by
  constructor
  · exact forward_status_classifier.2.2.2.2.2.1 (.Unknown 6) "x"
      (by decide) (by decide) (by decide) (by decide) (by decide)
  · exact forward_status_classifier.2.2.2.2.2.2.1 .Timeout
      (fun rc d h => ResolveErrorKind.noConfusion h)

/-- C6: the reverse-lookup failure classifier maps a no-records error
with embedded NXDomain to 3 and everything else — including no-records
errors with any other embedded code — to 2; the failure response carries
the synthetic PTR question entry and a diagnostic comment, and no answer
key. -/
theorem reverse_status_classifier :
    (∀ d, reverse_error_status (.NoRecordsFound .NXDomain d) = 3) ∧
    (∀ k : ResolveErrorKind, (∀ d, k ≠ .NoRecordsFound .NXDomain d) →
      reverse_error_status k = 2) ∧
    (∀ ip addr server k, parseIpAddr ip = some addr →
      create_resolver server false = Except.ok () →
      (reverse_lookup ip server (Except.error k)).getKey "Status" =
        some (Json.num (reverse_error_status k)) ∧
      (reverse_lookup ip server (Except.error k)).getKey "Question" =
        some (Json.arr [Json.obj [("name", Json.str (ptr_name addr)),
                                  ("type", Json.num PTR_TYPE)]]) ∧
      (reverse_lookup ip server (Except.error k)).getKey "comment" =
        some (Json.str (errDisplay k)) ∧
      (reverse_lookup ip server (Except.error k)).getKey "Answer" = none) := by
  refine ⟨fun _ => rfl, ?_, ?_⟩
  · intro k h
    cases k with
    | NoRecordsFound rc d =>
      cases rc with
      | NXDomain => exact absurd rfl (h d)
      | NoError => rfl
      | FormErr => rfl
      | ServFail => rfl
      | NotImp => rfl
      | Refused => rfl
      | YXDomain => rfl
      | YXRRSet => rfl
      | NXRRSet => rfl
      | NotAuth => rfl
      | NotZone => rfl
      | BADVERS => rfl
      | Unknown c => rfl
    | Message m => rfl
    | Msg m => rfl
    | NoConnections => rfl
    | IoErr m => rfl
    | Proto m => rfl
    | Timeout => rfl
  · intro ip addr server k hip hcr
    refine ⟨?_, ?_, ?_, ?_⟩ <;>
      simp [reverse_lookup, hip, hcr, build_getKey_Status, build_getKey_Question,
        build_getKey_Answer, build_getKey_comment, ResponseBuilder.new,
        ResponseBuilder.setStatus, ResponseBuilder.setRd, ResponseBuilder.setRa,
        ResponseBuilder.setComment, ResponseBuilder.add_question]

/-- C6 witness: an NXDomain-class reverse failure at `192.0.2.5` yields
Status 3 with the synthetic PTR question, and a Refused-class no-records
failure classifies to 2. -/
theorem reverse_status_classifier_witness :
    (reverse_lookup "192.0.2.5" none
        (Except.error (.NoRecordsFound .NXDomain "no record found"))).getKey
        "Question" =
      some (Json.arr [Json.obj [("name", Json.str "5.2.0.192.in-addr.arpa."),
                                ("type", Json.num 12)]]) ∧
    reverse_error_status (.NoRecordsFound .Refused "refused") = 2 := by
  constructor
  · have h := (reverse_status_classifier.2.2 "192.0.2.5" (.v4 192 0 2 5) none
      (.NoRecordsFound .NXDomain "no record found") rfl rfl).2.1
    exact h.trans (by rfl)
  · exact reverse_status_classifier.2.1 (.NoRecordsFound .Refused "refused")
      (fun d h => by
        injection h with h1 h2
        exact ResponseCode.noConfusion h1)

/-- C7: on an input that parses as neither an IPv4 nor an IPv6 literal,
`reverse_lookup` returns the minimal FormErr error response with a
comment, and the result does not depend on the configured server or on
any lookup outcome (no resolver is created, no query attempted). -/
theorem reverse_lookup_invalid_ip (ip : String) (h : parseIpAddr ip = none) :
    (∀ server lookupResult, reverse_lookup ip server lookupResult =
      ResponseBuilder.error RCODE_FORMERR
        ("Invalid IP address '" ++ ip ++ "': invalid IP address syntax")) ∧
    (∀ server lookupResult,
      (reverse_lookup ip server lookupResult).getKey "Status" =
        some (Json.num 1)) ∧
    (∀ server lookupResult,
      (reverse_lookup ip server lookupResult).getKey "comment" =
        some (Json.str
          ("Invalid IP address '" ++ ip ++ "': invalid IP address syntax"))) ∧
    (∀ server server' r r',
      reverse_lookup ip server r = reverse_lookup ip server' r') := by
  refine ⟨?_, ?_, ?_, ?_⟩ <;>
    intro _ _ <;>
    try intro _ _
  all_goals
    simp [reverse_lookup, h, ResponseBuilder.error, Json.getKey, findField,
      RCODE_FORMERR]

/-- C7 witness: the concrete rejected input `not-an-ip`. -/
theorem reverse_lookup_invalid_ip_witness :
    reverse_lookup "not-an-ip" none (Except.ok []) =
      ResponseBuilder.error 1
        "Invalid IP address 'not-an-ip': invalid IP address syntax" :=
  (reverse_lookup_invalid_ip "not-an-ip" rfl).1 none (Except.ok [])

/-- C8: the server-address parser accepts a socket-address form
(`ip:port`, `[ip]:port`) as given, a bare IP literal with default port
53, and fails with the invalid-address error on everything else; with
the spec's concrete vectors. -/
theorem parse_server_address_spec :
    (∀ s addr, parseSocketAddr s = some addr →
      parse_server_address s = Except.ok addr) ∧
    (∀ s ip, parseSocketAddr s = none → parseIpAddr s = some ip →
      parse_server_address s = Except.ok ⟨ip, 53⟩) ∧
    (∀ s, parseSocketAddr s = none → parseIpAddr s = none →
      parse_server_address s =
        Except.error ("Invalid DNS server address: " ++ s)) ∧
    parse_server_address "1.1.1.1" = Except.ok ⟨.v4 1 1 1 1, 53⟩ ∧
    parse_server_address "1.1.1.1:53" = Except.ok ⟨.v4 1 1 1 1, 53⟩ ∧
    parse_server_address "[::1]:53" =
      Except.ok ⟨.v6 [0, 0, 0, 0, 0, 0, 0, 1], 53⟩ ∧
    parse_server_address "not-an-ip" =
      Except.error "Invalid DNS server address: not-an-ip" := by
  refine ⟨?_, ?_, ?_, rfl, rfl, rfl, rfl⟩
  · intro s addr hs
    simp [parse_server_address, hs]
  · intro s ip hs hip
    simp [parse_server_address, hs, hip]
  · intro s hs hip
    simp [parse_server_address, hs, hip]

/-- C8 witness: the bare-literal branch applied at `8.8.8.8`. -/
theorem parse_server_address_spec_witness :
    parse_server_address "8.8.8.8" = Except.ok ⟨.v4 8 8 8 8, 53⟩ :=
  parse_server_address_spec.2.1 "8.8.8.8" (.v4 8 8 8 8) rfl rfl

/-- The answer entries the success branch of `resolve` accumulates: one
per record that carries a data payload, in order, serialized by
`rdata_to_string`. -/
def answer_entries (records : List ResolvedRecord) : List Json :=
  records.filterMap fun record =>
    record.rdata.map fun rdata =>
      Json.obj [("name", Json.str record.name), ("type", Json.num record.rtype),
                ("TTL", Json.num record.ttl),
                ("data", Json.str (rdata_to_string rdata))]

theorem resolve_foldl_answers (records : List ResolvedRecord)
    (b : ResponseBuilder) :
    records.foldl
      (fun b record =>
        match record.rdata with
        | some rdata =>
          b.add_answer record.name record.rtype record.ttl (rdata_to_string rdata)
        | none => b) b =
    { b with answers := b.answers ++ answer_entries records } := by
  induction records generalizing b with
  | nil => simp [answer_entries]
  | cons r rs ih =>
    cases hr : r.rdata with
    | none =>
      simp only [List.foldl_cons, hr]
      rw [ih]
      simp [answer_entries, List.filterMap_cons, hr]
    | some rdata =>
      simp only [List.foldl_cons, hr]
      rw [ih]
      simp [answer_entries, List.filterMap_cons, hr, ResponseBuilder.add_answer,
        List.append_assoc]

/-- C4 (amended): a successful forward `resolve` yields Status 0,
`RD=true`, `RA=true`, `AD` equal to the requested DNSSEC flag, exactly
one question entry with the given name and type, and one answer entry
per returned record THAT CARRIES A DATA PAYLOAD (records without data
contribute no answer, see the counterexample), in resolver order, each
serialized by the record-data serializer. -/
theorem resolve_success_response_shape (domain : String) (record_type : Nat)
    (dns_server : Option String) (dnssec : Bool)
    (records : List ResolvedRecord)
    (hcr : create_resolver dns_server dnssec = Except.ok ()) :
    (resolve domain record_type dns_server dnssec
        (Except.ok records)).getKey "Status" = some (Json.num 0) ∧
    (resolve domain record_type dns_server dnssec
        (Except.ok records)).getKey "RD" = some (Json.bool true) ∧
    (resolve domain record_type dns_server dnssec
        (Except.ok records)).getKey "RA" = some (Json.bool true) ∧
    (resolve domain record_type dns_server dnssec
        (Except.ok records)).getKey "AD" = some (Json.bool dnssec) ∧
    (resolve domain record_type dns_server dnssec
        (Except.ok records)).getKey "TC" = some (Json.bool false) ∧
    (resolve domain record_type dns_server dnssec
        (Except.ok records)).getKey "CD" = some (Json.bool false) ∧
    (resolve domain record_type dns_server dnssec
        (Except.ok records)).getKey "Question" =
      some (Json.arr [Json.obj [("name", Json.str domain),
                                ("type", Json.num record_type)]]) ∧
    (resolve domain record_type dns_server dnssec
        (Except.ok records)).getKey "Answer" =
      (if (answer_entries records).isEmpty then none
       else some (Json.arr (answer_entries records))) ∧
    (resolve domain record_type dns_server dnssec
        (Except.ok records)).getKey "comment" = none := by
  have hres : resolve domain record_type dns_server dnssec (Except.ok records) =
      ResponseBuilder.build
        { status := 0, tc := false, rd := true, ra := true, ad := dnssec,
          cd := false,
          questions := [Json.obj [("name", Json.str domain),
                                  ("type", Json.num record_type)]],
          answers := answer_entries records, comment := none } := by
    simp only [resolve, hcr]
    rw [resolve_foldl_answers]
    simp [ResponseBuilder.new, ResponseBuilder.setStatus, ResponseBuilder.setRd,
      ResponseBuilder.setRa, ResponseBuilder.setAd, ResponseBuilder.add_question,
      RCODE_NOERROR]
  refine ⟨?_, ?_, ?_, ?_, ?_, ?_, ?_, ?_, ?_⟩ <;> rw [hres] <;>
    simp [build_getKey_Status, build_getKey_RD, build_getKey_RA,
      build_getKey_AD, build_getKey_TC, build_getKey_CD, build_getKey_Question,
      build_getKey_Answer, build_getKey_comment]

/-- C4 witness: the spec's own success vector — one A record for
`example.com`, TTL 300, data `93.184.216.34`. -/
theorem resolve_success_response_shape_witness :
    (resolve "example.com" 1 none false
        (Except.ok [⟨"example.com", 1, 300, some (.A "93.184.216.34")⟩])).getKey
        "Answer" =
      some (Json.arr [Json.obj [("name", Json.str "example.com"),
                                ("type", Json.num 1), ("TTL", Json.num 300),
                                ("data", Json.str "93.184.216.34")]]) ∧
    (resolve "example.com" 1 none false
        (Except.ok [⟨"example.com", 1, 300, some (.A "93.184.216.34")⟩])).getKey
        "Status" = some (Json.num 0) := by
  have h := resolve_success_response_shape "example.com" 1 none false
    [⟨"example.com", 1, 300, some (.A "93.184.216.34")⟩] rfl
  exact ⟨(h.2.2.2.2.2.2.2.1).trans (by rfl), h.1⟩

/-- C4 counterexample: a lookup returning exactly one record whose data
payload is absent produces a response with NO answer entry at all, not
one answer entry per returned record as the frozen claim states. -/
theorem resolve_dataless_record_counterexample :
    (resolve "example.com" 1 none false
        (Except.ok [{ name := "example.com", rtype := 1, ttl := 300,
                      rdata := none }])).getKey "Answer" = none ∧
    [({ name := "example.com", rtype := 1, ttl := 300,
        rdata := none } : ResolvedRecord)].length = 1 :=
  ⟨rfl, rfl⟩
